import Mathlib

/-!
Verification of the target-orchestration core of the IPC GUI monitor
(`monitor.py`, `monitor_ipc.py`) via a shallow embedding in Lean.

JSON values produced by Python's `json.loads` are modelled by `Json` below.
Python `None` and JSON `null` are one and the same runtime value in the
source (the `json` module decodes `null` to `None`), so the single
constructor `Json.null` plays both roles; a Python function that "returns
None" is embedded as returning `Json.null`.

Numbers are modelled as `Int`: every numeric literal the claims exercise is
integral, and no claim in scope depends on float-specific behaviour.
-/

set_option maxHeartbeats 1000000

inductive Json where
  | null : Json
  | bool (b : Bool) : Json
  | num (n : Int) : Json
  | str (s : String) : Json
  | arr (xs : List Json) : Json
  | obj (kvs : List (String × Json)) : Json

/-- Single-quote character, built by code point to keep source scanning simple. -/
def pyQuote : String := String.singleton (Char.ofNat 39)

/-- Python truthiness on JSON-decoded values: `None`, `False`, `0`, `""`,
`[]`, `\x7b\x7d` are falsy, everything else truthy. -/
def pyFalsy : Json → Bool
  | .null => true
  | .bool b => !b
  | .num n => n == 0
  | .str s => s.isEmpty
  | .arr xs => xs.isEmpty
  | .obj kvs => kvs.isEmpty

mutual

/-- Python `repr` of a JSON-decoded value, as used by `str()` on
non-string values. String escaping inside `repr` is simplified to plain
single quotes; no claim depends on the exact repr text of containers. -/
def pyRepr : Json → String
  | .null => "None"
  | .bool true => "True"
  | .bool false => "False"
  | .num n => toString n
  | .str s => pyQuote ++ s ++ pyQuote
  | .arr xs => "[" ++ String.intercalate ", " (pyReprList xs) ++ "]"
  | .obj kvs => "\x7b" ++ String.intercalate ", " (pyReprKvs kvs) ++ "\x7d"

def pyReprList : List Json → List String
  | [] => []
  | x :: xs => pyRepr x :: pyReprList xs

def pyReprKvs : List (String × Json) → List String
  | [] => []
  | (k, v) :: rest => (pyQuote ++ k ++ pyQuote ++ ": " ++ pyRepr v) :: pyReprKvs rest

end

/-- Python `str()` of a JSON-decoded value. -/
def pyStr : Json → String
  | .str s => s
  | v => pyRepr v

/-- Whitespace set of Python `str.strip()` (ASCII part; exotic Unicode
space code points are not exercised by any claim). -/
def pyIsSpace (c : Char) : Bool :=
  c = ' ' || c = '\t' || c = '\n' || c = '\r' || c = Char.ofNat 11 || c = Char.ofNat 12

/-- Python `str.strip()`. -/
def pyStrip (s : String) : String :=
  String.mk (((s.data.dropWhile pyIsSpace).reverse.dropWhile pyIsSpace).reverse)

/-- ASCII lower-casing of one character. -/
def pyCharLower (c : Char) : Char :=
  if 65 ≤ c.toNat && c.toNat ≤ 90 then Char.ofNat (c.toNat + 32) else c

/-- Python `str.lower()` (ASCII; the config tokens compared are ASCII). -/
def pyLower (s : String) : String := String.mk (s.data.map pyCharLower)

/-- `d.get(k, default)` on a decoded JSON object (association list, first
match; decoded objects carry no duplicate keys). -/
def obj_getD (kvs : List (String × Json)) (k : String) (d : Json) : Json :=
  match kvs.find? (fun kv => kv.1 == k) with
  | some kv => kv.2
  | none => d

/-- `d.get(k)` — missing keys give Python `None`, i.e. `Json.null`. -/
def obj_get (kvs : List (String × Json)) (k : String) : Json :=
  obj_getD kvs k .null

/-- `k in d` on a decoded JSON object. -/
def obj_member (kvs : List (String × Json)) (k : String) : Bool :=
  (kvs.find? (fun kv => kv.1 == k)).isSome

/-- `str(d.get(k) or "")` — the pervasive source idiom for optional string
fields: a falsy value (including a missing key) collapses to `""`. -/
def pyStrOrEmpty (v : Json) : String :=
  if pyFalsy v then "" else pyStr v

/-- `str(v or d)` for a string default `d`. -/
def pyStrOr (v : Json) (d : String) : String :=
  if pyFalsy v then d else pyStr v

/-! ## JSONPath evaluator (`monitor_ipc.py`, `_iter_jsonpath_tokens` / `json_path_get`) -/

inductive JsonPathToken where
  | key (s : String) : JsonPathToken
  | index (i : Nat) : JsonPathToken
deriving DecidableEq

/-- Decimal (Unicode Nd) digits with their values — exactly the
characters `int()` accepts in a digit run.  The Unicode table is modelled
over ASCII plus representative Nd ranges (Arabic-Indic, extended
Arabic-Indic, Devanagari, fullwidth); the structural fact the source
exercises is that this set is strictly smaller than `str.isdigit`. -/
def pyDecimalDigit (c : Char) : Option Nat :=
  let n := c.toNat
  if 48 ≤ n && n ≤ 57 then some (n - 48)
  else if 1632 ≤ n && n ≤ 1641 then some (n - 1632)
  else if 1776 ≤ n && n ≤ 1785 then some (n - 1776)
  else if 2406 ≤ n && n ≤ 2415 then some (n - 2406)
  else if 65296 ≤ n && n ≤ 65305 then some (n - 65296)
  else none

/-- Python `str.isdigit` per character: every decimal (Nd) digit plus the
Numeric_Type=Digit characters that `int()` rejects — the superscripts
U+00B2/U+00B3/U+00B9 and U+2070/U+2074-U+2079, and the subscripts
U+2080-U+2089. -/
def pyIsDigit (c : Char) : Bool :=
  (pyDecimalDigit c).isSome
    || c.toNat = 178 || c.toNat = 179 || c.toNat = 185
    || c.toNat = 8304 || (8308 ≤ c.toNat && c.toNat ≤ 8313)
    || (8320 ≤ c.toNat && c.toNat ≤ 8329)

/-- Accumulate the decimal value of a digit run; `none` when any
character is outside Nd. -/
def pyIntDigits : List Char → Nat → Option Nat
  | [], acc => some acc
  | c :: cs, acc =>
      match pyDecimalDigit c with
      | some d => pyIntDigits cs (acc * 10 + d)
      | none => none

/-- `int(text[start:index])` on the scanned digit run: every character
must be a decimal digit, otherwise `int()` raises
`ValueError: invalid literal for int() with base 10: ...` — which
`_iter_jsonpath_tokens` does not catch. -/
def pyIntParse (l : List Char) : Except String Nat :=
  match pyIntDigits l 0 with
  | some n => .ok n
  | none =>
      .error ("invalid literal for int() with base 10: " ++ pyQuote ++ String.mk l ++ pyQuote)

/-- The scanning loop of `_iter_jsonpath_tokens` (source lines 111-135),
acting on the characters after the leading `$`.  A `.` introduces a key
running to the next `.` or `[` (empty key rejected); a `[` introduces an
`isdigit` run that must be nonempty and closed by `]`, and is then handed
to `int()` — which raises (the `.error` outcome, uncaught in the source)
on digit-property characters outside Nd; anything else makes the
tokenizer return `None` (`.ok none`).  `fuel` only drives structural
recursion; every recursive call consumes at least two characters, so
`fuel = length + 1` (as supplied by `_iter_jsonpath_tokens`) never runs
out. -/
def jsonpathScan : Nat → List Char → Except String (Option (List JsonPathToken))
  | 0, _ => .ok none
  | _ + 1, [] => .ok (some [])
  | fuel + 1, '.' :: rest =>
      let key := rest.takeWhile (fun c => !(c = '.' || c = '['))
      if key.isEmpty then .ok none
      else
        match jsonpathScan fuel (rest.drop key.length) with
        | .error e => .error e
        | .ok none => .ok none
        | .ok (some toks) => .ok (some (.key (String.mk key) :: toks))
  | fuel + 1, '[' :: rest =>
      let digits := rest.takeWhile pyIsDigit
      if digits.isEmpty then .ok none
      else
        match rest.drop digits.length with
        | ']' :: rest2 =>
            match pyIntParse digits with
            | .error e => .error e
            | .ok n =>
                match jsonpathScan fuel rest2 with
                | .error e => .error e
                | .ok none => .ok none
                | .ok (some toks) => .ok (some (.index n :: toks))
        | _ => .ok none
  | _ + 1, _ => .ok none

/-- `_iter_jsonpath_tokens(path)`: strip, require the leading `$`, then
scan; `"$"` alone is the empty token list.  `.ok none` is the
function returning `None`; `.error` is an uncaught `ValueError` escaping
from `int()`. -/
def _iter_jsonpath_tokens (path : String) : Except String (Option (List JsonPathToken)) :=
  match (pyStrip path).data with
  | [] => .ok none
  | c :: rest =>
      if c = '$' then
        if rest.isEmpty then .ok (some []) else jsonpathScan (rest.length + 1) rest
      else .ok none

/-- The token-consuming loop of `json_path_get` (source lines 145-160).
Indexing a non-array, an out-of-range index, keying a non-object or a
missing key all return Python `None`, i.e. `Json.null`. -/
def jsonPathStep : Json → List JsonPathToken → Json
  | node, [] => node
  | node, .index i :: rest =>
      match node with
      | .arr xs =>
          match xs.get? i with
          | some v => jsonPathStep v rest
          | none => .null
      | _ => .null
  | node, .key k :: rest =>
      match node with
      | .obj kvs =>
          match kvs.find? (fun kv => kv.1 == k) with
          | some kv => jsonPathStep kv.2 rest
          | none => .null
      | _ => .null

/-- `json_path_get(payload, path)` — a tokenizer `None` returns Python
`None` (`Json.null`), an uncaught tokenizer `ValueError` propagates
(`.error`); otherwise the tokens are resolved one by one. -/
def json_path_get (payload : Json) (path : String) : Except String Json :=
  match _iter_jsonpath_tokens path with
  | .error e => .error e
  | .ok none => .ok .null
  | .ok (some toks) => .ok (jsonPathStep payload toks)

/-! ## `render_value` (`monitor_ipc.py` lines 163-169) -/

/-- JSON string escaping as in `json.dumps`: quote, backslash, and C0
control characters. -/
def jsonEscapeChar (c : Char) : String :=
  if c = Char.ofNat 34 then "\\" ++ String.singleton (Char.ofNat 34)
  else if c = '\\' then "\\\\"
  else if c = '\n' then "\\n"
  else if c = '\t' then "\\t"
  else if c = '\r' then "\\r"
  else if c = Char.ofNat 8 then "\\b"
  else if c = Char.ofNat 12 then "\\f"
  else if c.toNat < 32 then
    "\\u00" ++ String.singleton (Char.ofNat (if c.toNat / 16 < 10 then 48 + c.toNat / 16 else 87 + c.toNat / 16))
      ++ String.singleton (Char.ofNat (if c.toNat % 16 < 10 then 48 + c.toNat % 16 else 87 + c.toNat % 16))
  else String.singleton c

def jsonEscape (s : String) : String :=
  String.join (s.data.map jsonEscapeChar)

mutual

/-- `json.dumps(value, separators=(",", ":"), ensure_ascii=False)`. -/
def json_dumps_compact : Json → String
  | .null => "null"
  | .bool true => "true"
  | .bool false => "false"
  | .num n => toString n
  | .str s => String.singleton (Char.ofNat 34) ++ jsonEscape s ++ String.singleton (Char.ofNat 34)
  | .arr xs => "[" ++ String.intercalate "," (jsonDumpsList xs) ++ "]"
  | .obj kvs => "\x7b" ++ String.intercalate "," (jsonDumpsKvs kvs) ++ "\x7d"

def jsonDumpsList : List Json → List String
  | [] => []
  | x :: xs => json_dumps_compact x :: jsonDumpsList xs

def jsonDumpsKvs : List (String × Json) → List String
  | [] => []
  | (k, v) :: rest =>
      (String.singleton (Char.ofNat 34) ++ jsonEscape k ++ String.singleton (Char.ofNat 34)
        ++ ":" ++ json_dumps_compact v) :: jsonDumpsKvs rest

end

/-- `render_value(value)`: `None` renders as the placeholder `"-"`;
containers render as compact JSON truncated to 200 characters; scalars
render via `str()`. -/
def render_value (value : Json) : String :=
  match value with
  | .null => "-"
  | .arr _ | .obj _ =>
      let text := json_dumps_compact value
      if text.length ≤ 200 then text else text.take 197 ++ "..."
  | v => pyStr v

/-! ## Theorems for the JSONPath evaluator (claims C1, C10) -/

/-- Structurally successful resolution of a token list against a value:
each token steps into an element that actually exists.  This mirrors the
success path of the loop in `json_path_get`. -/
inductive ResolvesTo : Json → List JsonPathToken → Json → Prop where
  | done (node : Json) : ResolvesTo node [] node
  | stepIndex {xs : List Json} {i : Nat} {v leaf : Json} {rest : List JsonPathToken} :
      xs.get? i = some v → ResolvesTo v rest leaf →
      ResolvesTo (Json.arr xs) (.index i :: rest) leaf
  | stepKey {kvs : List (String × Json)} {k : String} {kv : String × Json}
      {leaf : Json} {rest : List JsonPathToken} :
      kvs.find? (fun p => p.1 == k) = some kv → ResolvesTo kv.2 rest leaf →
      ResolvesTo (Json.obj kvs) (.key k :: rest) leaf

lemma jsonPathStep_of_resolvesTo {node : Json} {toks : List JsonPathToken} {leaf : Json}
    (h : ResolvesTo node toks leaf) : jsonPathStep node toks = leaf := by
  induction h with
  | done node => rfl
  | stepIndex hget _ ih => simp only [jsonPathStep, hget, ih]
  | stepKey hfind _ ih => simp only [jsonPathStep, hfind, ih]

/-- C1: the claimed totality fails on the code.  `str.isdigit` admits
digit-property characters such as the superscript `²` that `int()` then
rejects, so `json_path_get(root, "$[²]")` raises an uncaught `ValueError`
(`.error` here) instead of returning absent — `monitor_ipc.py` line 127
admits the run, line 131 raises.  On the decimal (Nd) digit `٣`, by
contrast, the tokenizer produces index 3 and resolution proceeds; and on
ordinary rejections the evaluator is permissive as documented: `"$"`
returns the root. -/
theorem jsonpath_raises_on_digit_property_index :
    json_path_get (Json.obj []) "$[²]"
      = Except.error ("invalid literal for int() with base 10: " ++ pyQuote ++ "²" ++ pyQuote)
    ∧ _iter_jsonpath_tokens "$[٣]" = Except.ok (some [JsonPathToken.index 3])
    ∧ json_path_get (Json.arr [Json.num 7, Json.num 8, Json.num 9, Json.num 4]) "$[٣]"
      = Except.ok (Json.num 4)
    ∧ (∀ root : Json, json_path_get root "$" = Except.ok root) := by
  refine ⟨rfl, rfl, rfl, ?_⟩
  intro root
  have h : _iter_jsonpath_tokens "$" = Except.ok (some []) := rfl
  unfold json_path_get
  rw [h]
  rfl

/-- C10: a JSON `null` leaf is indistinguishable from an absent path at
the public interface.  A well-formed path that structurally resolves to a
`null` leaf makes `json_path_get` return `Json.null` — the very value
returned for a malformed path or a missing key — and `render_value` maps
that value to the placeholder `"-"`. -/
theorem null_leaf_indistinguishable_from_absent :
    ∀ (root : Json) (path : String) (toks : List JsonPathToken),
      _iter_jsonpath_tokens path = Except.ok (some toks) →
      ResolvesTo root toks Json.null →
      json_path_get root path = Except.ok Json.null
      ∧ (∀ (r : Json) (p : String), _iter_jsonpath_tokens p = Except.ok none →
          json_path_get r p = Except.ok Json.null)
      ∧ render_value Json.null = "-" := by
  intro root path toks htoks hres
  refine ⟨?_, ?_, rfl⟩
  · unfold json_path_get
    rw [htoks]
    show Except.ok (jsonPathStep root toks) = Except.ok Json.null
    rw [jsonPathStep_of_resolvesTo hres]
  · intro r p h
    unfold json_path_get
    rw [h]

/-- Witness for C10: resolving `$.a` against `\x7b"a": null\x7d` returns
exactly the sentinel returned for the missing key `$.b`, and renders as
`"-"`. -/
theorem null_leaf_indistinguishable_from_absent_witness :
    json_path_get (Json.obj [("a", Json.null)]) "$.a" = Except.ok Json.null
    ∧ (∀ (r : Json) (p : String), _iter_jsonpath_tokens p = Except.ok none →
        json_path_get r p = Except.ok Json.null)
    ∧ render_value Json.null = "-" :=
  null_leaf_indistinguishable_from_absent (Json.obj [("a", Json.null)]) "$.a"
    [JsonPathToken.key "a"] rfl
    (@ResolvesTo.stepKey [("a", Json.null)] "a" ("a", Json.null) Json.null [] rfl
      (ResolvesTo.done Json.null))

/-! ## Action Output Log (`monitor.py`, `ActionOutputBuffer`, lines 1138-1164) -/

/-- `len(s.encode("utf-8", errors="ignore"))`.  Lean strings carry no lone
surrogates, so encoding never drops anything. -/
def utf8Len (s : String) : Nat :=
  s.data.foldl (fun n c => n + c.utf8Size) 0

/-- Python `s.rstrip("\r\n")`: strip trailing CR/LF characters. -/
def pyRstripCRLF (s : String) : String :=
  String.mk ((s.data.reverse.dropWhile (fun c => c = '\r' || c = '\n')).reverse)

/-- In-memory state of `ActionOutputBuffer`: the deque of `(size, line)`
pairs oldest-first plus the tracked byte total.  The `threading.Lock` only
serialises access and is not part of the state. -/
structure ActionOutputBuffer where
  max_lines : Nat
  max_bytes : Nat
  lines : List (Nat × String)
  total_bytes : Nat

/-- `ActionOutputBuffer.__init__`: clamps `max_lines` to at least 1 and
`max_bytes` to at least 1024, starts empty. -/
def ActionOutputBuffer.init (maxLines maxBytes : Int) : ActionOutputBuffer :=
  { max_lines := (max 1 maxLines).toNat
    max_bytes := (max 1024 maxBytes).toNat
    lines := []
    total_bytes := 0 }

/-- The eviction loop of `append`: while the deque is nonempty and the
line count exceeds `max_lines` or the byte total exceeds `max_bytes`, pop
the oldest entry and subtract its size. -/
def evictOldest (maxLines maxBytes : Nat) : List (Nat × String) → Nat → List (Nat × String) × Nat
  | [], total => ([], total)
  | entry :: rest, total =>
      if rest.length + 1 > maxLines || total > maxBytes then
        evictOldest maxLines maxBytes rest (total - entry.1)
      else (entry :: rest, total)

/-- `ActionOutputBuffer.append(stream, text)`: format the line, push it
newest-last, evict oldest-first until the bounds hold, and return the new
state together with the joined snapshot and the formatted line. -/
def ActionOutputBuffer.append (buf : ActionOutputBuffer) (stream text : String) :
    ActionOutputBuffer × String × String :=
  let line := pyRstripCRLF ("[" ++ stream ++ "] " ++ text)
  let size := utf8Len line + 1
  let ev := evictOldest buf.max_lines buf.max_bytes (buf.lines ++ [(size, line)])
    (buf.total_bytes + size)
  ({ buf with lines := ev.1, total_bytes := ev.2 },
   String.intercalate "\n" (ev.1.map (fun e => e.2)), line)

/-- `ActionOutputBuffer.snapshot()`. -/
def ActionOutputBuffer.snapshot (buf : ActionOutputBuffer) : String :=
  String.intercalate "\n" (buf.lines.map (fun e => e.2))

/-- `ActionOutputBuffer.clear()`. -/
def ActionOutputBuffer.clear (buf : ActionOutputBuffer) : ActionOutputBuffer :=
  { buf with lines := [], total_bytes := 0 }

/-- Fold a sequence of `append(stream, text)` calls over a buffer. -/
def appendAll (buf : ActionOutputBuffer) : List (String × String) → ActionOutputBuffer
  | [] => buf
  | (s, t) :: rest => appendAll (buf.append s t).1 rest

def sizesSum (l : List (Nat × String)) : Nat :=
  (l.map (fun e => e.1)).sum

lemma sizesSum_append (l : List (Nat × String)) (e : Nat × String) :
    sizesSum (l ++ [e]) = sizesSum l + e.1 := by
  simp [sizesSum]

lemma evictOldest_spec (ml mb : Nat) :
    ∀ (l : List (Nat × String)) (t : Nat), t = sizesSum l →
      (evictOldest ml mb l t).1.length ≤ ml
      ∧ (evictOldest ml mb l t).2 ≤ mb
      ∧ (evictOldest ml mb l t).2 = sizesSum (evictOldest ml mb l t).1
      ∧ List.IsSuffix (evictOldest ml mb l t).1 l := by
  intro l
  induction l with
  | nil =>
      intro t ht
      have ht0 : t = 0 := by simpa [sizesSum] using ht
      subst ht0
      refine ⟨by simp [evictOldest], by simp [evictOldest], ?_, by simp [evictOldest]⟩
      simp [evictOldest, sizesSum]
  | cons entry rest ih =>
      intro t ht
      have hexp : sizesSum (entry :: rest) = entry.1 + sizesSum rest := by
        simp [sizesSum]
      simp only [evictOldest]
      by_cases h1 : (decide (rest.length + 1 > ml) || decide (t > mb)) = true
      · rw [if_pos h1]
        have hsz : t - entry.1 = sizesSum rest := by omega
        have IH := ih (t - entry.1) hsz
        exact ⟨IH.1, IH.2.1, IH.2.2.1, IH.2.2.2.trans (List.suffix_cons entry rest)⟩
      · rw [if_neg h1]
        have h2 : rest.length + 1 ≤ ml ∧ t ≤ mb := by
          simp only [Bool.or_eq_true, decide_eq_true_eq] at h1
          push_neg at h1
          omega
        refine ⟨by simpa [List.length_cons] using h2.1, h2.2, ht, List.suffix_refl _⟩

lemma evictOldest_suffix (ml mb : Nat) :
    ∀ (l : List (Nat × String)) (t : Nat), List.IsSuffix (evictOldest ml mb l t).1 l := by
  intro l
  induction l with
  | nil => intro t; simp [evictOldest]
  | cons entry rest ih =>
      intro t
      simp only [evictOldest]
      by_cases h1 : (decide (rest.length + 1 > ml) || decide (t > mb)) = true
      · rw [if_pos h1]
        exact (ih (t - entry.1)).trans (List.suffix_cons entry rest)
      · rw [if_neg h1]

/-- The buffer invariant: the tracked byte total is the sum of the stored
sizes, and both configured bounds hold. -/
def ActionOutputBuffer.Inv (buf : ActionOutputBuffer) : Prop :=
  buf.total_bytes = sizesSum buf.lines
  ∧ buf.lines.length ≤ buf.max_lines
  ∧ buf.total_bytes ≤ buf.max_bytes

lemma append_preserves_inv (buf : ActionOutputBuffer) (stream text : String)
    (h : buf.Inv) :
    (buf.append stream text).1.Inv
    ∧ (buf.append stream text).1.max_lines = buf.max_lines
    ∧ (buf.append stream text).1.max_bytes = buf.max_bytes := by
  unfold ActionOutputBuffer.append
  set line := pyRstripCRLF ("[" ++ stream ++ "] " ++ text) with hline
  set size := utf8Len line + 1 with hsize
  have hsum : buf.total_bytes + size = sizesSum (buf.lines ++ [(size, line)]) := by
    rw [sizesSum_append, h.1]
  have spec := evictOldest_spec buf.max_lines buf.max_bytes
    (buf.lines ++ [(size, line)]) (buf.total_bytes + size) hsum
  exact ⟨⟨spec.2.2.1, spec.1, spec.2.1⟩, rfl, rfl⟩

lemma appendAll_preserves_inv (calls : List (String × String)) :
    ∀ (buf : ActionOutputBuffer), buf.Inv →
      (appendAll buf calls).Inv
      ∧ (appendAll buf calls).max_lines = buf.max_lines
      ∧ (appendAll buf calls).max_bytes = buf.max_bytes := by
  induction calls with
  | nil => intro buf h; exact ⟨h, rfl, rfl⟩
  | cons c rest ih =>
      intro buf h
      obtain ⟨h1, h2, h3⟩ := append_preserves_inv buf c.1 c.2 h
      have step : appendAll buf (c :: rest) = appendAll (buf.append c.1 c.2).1 rest := by
        cases c; rfl
      rw [step]
      obtain ⟨g1, g2, g3⟩ := ih (buf.append c.1 c.2).1 h1
      exact ⟨g1, g2.trans h2, g3.trans h3⟩

/-- C2: after every sequence of `append(stream, text)` calls starting from
a fresh `ActionOutputBuffer`, the deque holds at most `max_lines` lines
and at most `max_bytes` cumulative bytes, and every individual append only
ever removes entries from the oldest end: the post-append deque is a
suffix of the previous deque with the new line pushed at the newest end. -/
theorem action_output_log_bounded_and_oldest_first :
    ∀ (maxLines maxBytes : Int) (calls : List (String × String)),
      ((appendAll (ActionOutputBuffer.init maxLines maxBytes) calls).lines.length
          ≤ (appendAll (ActionOutputBuffer.init maxLines maxBytes) calls).max_lines
        ∧ (appendAll (ActionOutputBuffer.init maxLines maxBytes) calls).total_bytes
          ≤ (appendAll (ActionOutputBuffer.init maxLines maxBytes) calls).max_bytes)
      ∧ (∀ (buf : ActionOutputBuffer) (stream text : String),
          List.IsSuffix (buf.append stream text).1.lines
            (buf.lines ++ [(utf8Len (pyRstripCRLF ("[" ++ stream ++ "] " ++ text)) + 1,
              pyRstripCRLF ("[" ++ stream ++ "] " ++ text))])) := by
  intro maxLines maxBytes calls
  constructor
  · have hinit : (ActionOutputBuffer.init maxLines maxBytes).Inv := by
      refine ⟨rfl, ?_, ?_⟩ <;> simp [ActionOutputBuffer.init]
    have h := (appendAll_preserves_inv calls _ hinit).1
    exact ⟨h.2.1, h.2.2⟩
  · intro buf stream text
    exact evictOldest_suffix buf.max_lines buf.max_bytes _ _

/-! ## Control Protocol Client (`monitor_ipc.py`, `_request_ipc_v0`, lines 73-98) -/

/-- Observable outcome of the effectful prefix of `_request_ipc_v0`:
endpoint parsing, connecting, sending, reading one line and stripping it,
and `json.loads` on that line.  `exn` covers every exception the
function-wide `try` can catch (endpoint `ValueError`, socket errors,
timeouts, JSON decode errors) with its rendered text; `empty` is a
stripped response line that is empty; `parsed` is the decoded JSON value
of a nonempty line. -/
inductive RecvOutcome where
  | exn (msg : String) : RecvOutcome
  | empty : RecvOutcome
  | parsed (v : Json) : RecvOutcome

/-- `_request_ipc_v0` after the wire outcome is known: classifies the
outcome into the `(code, responseObject, message)` triple the caller
receives.  The `except Exception` wrapper means no exception ever escapes:
every branch returns a triple. -/
def _request_ipc_v0 : RecvOutcome → Nat × Json × String
  | .exn m => (2, .obj [], "ipc request failed: " ++ m)
  | .empty => (2, .obj [], "ipc response is empty")
  | .parsed v =>
      match v with
      | .obj kvs =>
          if pyFalsy (obj_getD kvs "ok" (.bool false)) then
            match obj_get kvs "error" with
            | .obj ekvs => (2, .obj kvs, pyStrOr (obj_get ekvs "message") "ipc request failed")
            | _ => (2, .obj kvs, "ipc request failed")
          else (0, .obj kvs, "")
      | _ => (2, .obj [], "ipc response is not an object")

/-- C5: the request function never raises to its caller (it is a total
function of the wire outcome — the source's function-wide `try/except`
maps every exception to a failure triple), returns code 0 with the parsed
response object exactly when the response line parsed to a JSON object
whose `ok` field is truthy, and every other outcome yields the non-zero
failure code 2 paired with a message string. -/
theorem request_ipc_uniform_failure :
    ∀ (o : RecvOutcome),
      ((_request_ipc_v0 o).1 = 0 ↔
        ∃ kvs, o = .parsed (.obj kvs)
          ∧ pyFalsy (obj_getD kvs "ok" (.bool false)) = false
          ∧ _request_ipc_v0 o = (0, .obj kvs, ""))
      ∧ ((_request_ipc_v0 o).1 ≠ 0 → (_request_ipc_v0 o).1 = 2) := by
  intro o
  match o with
  | .exn m => exact ⟨by simp [_request_ipc_v0], fun _ => rfl⟩
  | .empty => exact ⟨by simp [_request_ipc_v0], fun _ => rfl⟩
  | .parsed v =>
      match v with
      | .null => exact ⟨by simp [_request_ipc_v0], fun _ => rfl⟩
      | .bool b => exact ⟨by simp [_request_ipc_v0], fun _ => rfl⟩
      | .num n => exact ⟨by simp [_request_ipc_v0], fun _ => rfl⟩
      | .str s => exact ⟨by simp [_request_ipc_v0], fun _ => rfl⟩
      | .arr xs => exact ⟨by simp [_request_ipc_v0], fun _ => rfl⟩
      | .obj kvs =>
          by_cases hok : pyFalsy (obj_getD kvs "ok" (.bool false)) = false
          · refine ⟨?_, ?_⟩
            · constructor
              · intro _
                exact ⟨kvs, rfl, hok, by simp [_request_ipc_v0, hok]⟩
              · intro _
                simp [_request_ipc_v0, hok]
            · intro hne
              exfalso
              exact hne (by simp [_request_ipc_v0, hok])
          · have hok2 : pyFalsy (obj_getD kvs "ok" (.bool false)) = true :=
              Bool.ne_false_iff.mp hok
            refine ⟨?_, ?_⟩
            · constructor
              · intro h0
                exfalso
                simp only [_request_ipc_v0, hok2, if_pos] at h0
                cases hmatch : obj_get kvs "error" with
                | obj ekvs => rw [hmatch] at h0; simp at h0
                | null => rw [hmatch] at h0; simp at h0
                | bool b => rw [hmatch] at h0; simp at h0
                | num n => rw [hmatch] at h0; simp at h0
                | str s => rw [hmatch] at h0; simp at h0
                | arr xs => rw [hmatch] at h0; simp at h0
              · intro ⟨kvs2, heq, hfalse, _⟩
                injection heq with heq2
                injection heq2 with heq3
                exact absurd (heq3 ▸ hfalse) (by rw [hok2]; simp)
            · intro _
              simp only [_request_ipc_v0, hok2, if_pos]
              cases hmatch : obj_get kvs "error" with
              | obj ekvs => simp
              | null => simp
              | bool b => simp
              | num n => simp
              | str s => simp
              | arr xs => simp

/-- Witness for C5: an empty response line yields failure code 2, and an
`ok:true` object yields code 0 with the object itself. -/
theorem request_ipc_uniform_failure_witness :
    (_request_ipc_v0 RecvOutcome.empty).1 = 2
    ∧ (_request_ipc_v0 (RecvOutcome.parsed (Json.obj [("ok", Json.bool true)]))).1 = 0 :=
  ⟨(request_ipc_uniform_failure RecvOutcome.empty).2 (by decide),
   (request_ipc_uniform_failure (RecvOutcome.parsed (Json.obj [("ok", Json.bool true)]))).1.mpr
     ⟨[("ok", Json.bool true)], rfl, by decide, rfl⟩⟩

/-! ## Status refresh (`monitor.py`, `MonitorApp._refresh_target` lines 3464-3489,
`MonitorApp._set_status_error` lines 3491-3495) -/

/-- The mutable per-target runtime fields the refresh path touches. -/
structure TargetRuntime where
  lastGoodStatus : Option Json
  lastStatusError : Option (String × String)

/-- The `response` extraction of `_refresh_target`: on `rc == 0`, accept
`response_obj.get("response")` only if it is a JSON object. -/
def statusPayloadOf (rc : Nat) (response_obj : Json) : Option (List (String × Json)) :=
  if rc = 0 then
    match response_obj with
    | .obj kvs =>
        match obj_get kvs "response" with
        | .obj rkvs => some rkvs
        | _ => none
    | _ => none
  else none

/-- The `error_message` computed by `_refresh_target` before the final
store, including the `error_text or f"status.get failed rc=..."` and the
trailing `error_message or "status.get failed"` fallbacks. -/
def statusErrorMessageOf (rc : Nat) (response_obj : Json) (error_text : String) : String :=
  let base :=
    if rc = 0 then
      match statusPayloadOf rc response_obj with
      | some _ => ""
      | none => "status.get returned invalid payload"
    else if error_text = "" then "status.get failed rc=" ++ toString rc else error_text
  if base = "" then "status.get failed" else base

/-- The state update of `_refresh_target` once the IPC outcome
`(rc, response_obj, error_text)` is in hand (`ts` is the `utc_now_iso()`
timestamp `_set_status_error` would embed): a usable payload overwrites
`lastGoodStatus` and clears `lastStatusError`; anything else leaves
`lastGoodStatus` untouched and only records the timestamped error. -/
def _refresh_target_update (runtime : TargetRuntime) (ts : String)
    (rc : Nat) (response_obj : Json) (error_text : String) : TargetRuntime :=
  match statusPayloadOf rc response_obj with
  | some p => { lastGoodStatus := some (.obj p), lastStatusError := none }
  | none =>
      { runtime with
        lastStatusError := some (ts, statusErrorMessageOf rc response_obj error_text) }

/-- C4: a failed status refresh (non-zero code, or a response whose
`response` field is not an object) leaves `lastGoodStatus` unchanged and
only sets `lastStatusError` to the timestamped message; a successful
refresh stores the new payload and resets `lastStatusError` to `none`. -/
theorem refresh_preserves_last_good_status :
    ∀ (runtime : TargetRuntime) (ts : String) (rc : Nat) (response_obj : Json)
      (error_text : String),
      (statusPayloadOf rc response_obj = none →
        (_refresh_target_update runtime ts rc response_obj error_text).lastGoodStatus
            = runtime.lastGoodStatus
        ∧ (_refresh_target_update runtime ts rc response_obj error_text).lastStatusError
            = some (ts, statusErrorMessageOf rc response_obj error_text))
      ∧ (∀ p, statusPayloadOf rc response_obj = some p →
        (_refresh_target_update runtime ts rc response_obj error_text).lastGoodStatus
            = some (.obj p)
        ∧ (_refresh_target_update runtime ts rc response_obj error_text).lastStatusError
            = none) := by
  intro runtime ts rc response_obj error_text
  constructor
  · intro hnone
    unfold _refresh_target_update
    rw [hnone]
    exact ⟨rfl, rfl⟩
  · intro p hsome
    unfold _refresh_target_update
    rw [hsome]
    exact ⟨rfl, rfl⟩

/-- Witness for C4: a connection-error outcome (rc 2) leaves a previously
cached payload untouched; a successful outcome replaces it. -/
theorem refresh_preserves_last_good_status_witness :
    ((_refresh_target_update
        ⟨some (Json.obj [("pid", Json.num 123)]), none⟩ "2026-01-01T00:00:00Z"
        2 (Json.obj []) "ipc request failed: timeout").lastGoodStatus
      = some (Json.obj [("pid", Json.num 123)])
    ∧ (_refresh_target_update
        ⟨some (Json.obj [("pid", Json.num 123)]), none⟩ "2026-01-01T00:00:00Z"
        2 (Json.obj []) "ipc request failed: timeout").lastStatusError
      = some ("2026-01-01T00:00:00Z", "ipc request failed: timeout"))
    ∧ ((_refresh_target_update
        ⟨some (Json.obj [("pid", Json.num 123)]), none⟩ "2026-01-01T00:00:00Z"
        0 (Json.obj [("ok", Json.bool true), ("response", Json.obj [("pid", Json.num 124)])])
        "").lastGoodStatus
      = some (Json.obj [("pid", Json.num 124)])) :=
  ⟨(refresh_preserves_last_good_status
      ⟨some (Json.obj [("pid", Json.num 123)]), none⟩ "2026-01-01T00:00:00Z"
      2 (Json.obj []) "ipc request failed: timeout").1 rfl,
   ((refresh_preserves_last_good_status
      ⟨some (Json.obj [("pid", Json.num 123)]), none⟩ "2026-01-01T00:00:00Z"
      0 (Json.obj [("ok", Json.bool true), ("response", Json.obj [("pid", Json.num 124)])])
      "").2 [("pid", Json.num 124)] rfl).1⟩

/-! ## Action dispatcher, local path (`monitor.py`, `_normalize_cmd` lines 689-693,
`_apply_action_placeholders` lines 764-769, `MonitorApp._run_action` lines 3689-3756) -/

/-- `_normalize_cmd(value)`: non-lists give `[]`; list entries are
stringified and kept only when their stripped text is nonempty. -/
def _normalize_cmd (value : Json) : List String :=
  match value with
  | .arr parts => (parts.filter (fun p => !(pyStrip (pyStr p)).isEmpty)).map pyStr
  | _ => []

/-- Python `s.replace(pat, rep)` for a nonempty pattern: scan left to
right, replacing each non-overlapping occurrence and continuing after the
replacement.  `fuel = length + 1` drives structural recursion and never
runs out. -/
def pyReplaceAux (pat rep : List Char) : Nat → List Char → List Char
  | 0, l => l
  | _ + 1, [] => []
  | fuel + 1, c :: rest =>
      if pat.isPrefixOf (c :: rest) then
        rep ++ pyReplaceAux pat rep fuel ((c :: rest).drop pat.length)
      else c :: pyReplaceAux pat rep fuel rest

/-- Python `s.replace(pat, rep)`.  The placeholder tokens substituted by
the source are never empty, so the empty-pattern case is unreachable
there. -/
def pyReplace (s pat rep : String) : String :=
  if pat.isEmpty then s
  else String.mk (pyReplaceAux pat.data rep.data (s.data.length + 1) s.data)

/-- `_apply_action_placeholders(parts, values)`: for each `(key, value)`
pair in order, replace every occurrence of the token `\x7bkey\x7d` in
every part. -/
def _apply_action_placeholders (parts : List String) (values : List (String × String)) :
    List String :=
  values.foldl
    (fun acc kv => acc.map (fun part => pyReplace part ("\x7b" ++ kv.1 ++ "\x7d") kv.2))
    parts

/-- Character class of the placeholder regex `[A-Za-z0-9_]` (ASCII). -/
def isPlaceholderChar (c : Char) : Bool :=
  c.isAlpha || c.isDigit || c = Char.ofNat 95

/-- `re.search(r"\x7b[A-Za-z0-9_]+\x7d", s) is not None`, as a scanner: a
match exists iff some `\x7b` is followed by a nonempty run of placeholder
characters and then `\x7d`. -/
def hasPlaceholderAux : List Char → Bool
  | [] => false
  | c :: rest =>
      if c = Char.ofNat 123 then
        let run := rest.takeWhile isPlaceholderChar
        let closed :=
          !run.isEmpty &&
            (match rest.drop run.length with
             | d :: _ => d = Char.ofNat 125
             | [] => false)
        if closed then true else hasPlaceholderAux rest
      else hasPlaceholderAux rest

def hasPlaceholder (s : String) : Bool :=
  hasPlaceholderAux s.data

/-- Python-dict insert/overwrite preserving first-insertion order. -/
def dictUpsert (d : List (String × String)) (k v : String) : List (String × String) :=
  if d.any (fun kv => kv.1 == k) then
    d.map (fun kv => if kv.1 == k then (k, v) else kv)
  else d ++ [(k, v)]

/-- The `resolved_action_args` construction of `_run_action` (lines
3707-3714): stringify and strip keys, drop empty keys, then add the
conventional `value` entry from `action_value` unless already present. -/
def resolveActionArgs (action_args : Option (List (String × String)))
    (action_value : Option String) : List (String × String) :=
  let base :=
    match action_args with
    | some items =>
        items.foldl
          (fun acc kv =>
            let kt := pyStrip kv.1
            if kt.isEmpty then acc else dictUpsert acc kt kv.2)
          []
    | none => []
  match action_value with
  | some v => if base.any (fun kv => kv.1 == "value") then base else base ++ [("value", v)]
  | none => base

/-- The command after normalization and placeholder substitution, exactly
as `_run_action` computes it (substitution is skipped when no argument was
resolved). -/
def substituted_cmd (action : List (String × Json)) (action_value : Option String)
    (action_args : Option (List (String × String))) : List String :=
  let cmd := _normalize_cmd (obj_get action "cmd")
  let resolved := resolveActionArgs action_args action_value
  if resolved.isEmpty then cmd else _apply_action_placeholders cmd resolved

/-- The working directory after stripping and (when arguments were
resolved) placeholder substitution, as `_run_action` computes it. -/
def substituted_cwd (action : List (String × Json)) (action_value : Option String)
    (action_args : Option (List (String × String))) : String :=
  let resolved := resolveActionArgs action_args action_value
  let cwd_text := pyStrip (pyStrOrEmpty (obj_get action "cwd"))
  if !cwd_text.isEmpty && !resolved.isEmpty then
    match _apply_action_placeholders [cwd_text] resolved with
    | r :: _ => r
    | [] => cwd_text
  else cwd_text

/-- What `_run_action` decides to do: either append a single system error
line and stop, or launch the process with the given command, directory and
detach flag. -/
inductive ActionDecision where
  | report (msg : String) : ActionDecision
  | launch (cmd : List String) (cwd : Option String) (detached : Bool) : ActionDecision

def ActionDecision.isReport : ActionDecision → Bool
  | .report _ => true
  | .launch _ _ _ => false

/-- The launch-decision prefix of `_run_action` (lines 3696-3756): empty
command, unresolved placeholders in the command, and unresolved
placeholders in the cwd each report an error line without launching;
otherwise the process is launched.  The mutex acquire/release around this
block and the subprocess mechanics are modelled separately (see the lock
transition system below); the shared subexpressions are factored through
`substituted_cmd` / `substituted_cwd`. -/
def _run_action_decision (action : List (String × Json)) (action_value : Option String)
    (action_args : Option (List (String × String))) : ActionDecision :=
  let action_name := pyStrOrEmpty (obj_get action "name")
  let action_label := pyStrOr (obj_get action "label") action_name
  let cmd := substituted_cmd action action_value action_args
  if cmd.isEmpty then .report (action_label ++ ": empty command")
  else if cmd.any hasPlaceholder then
    .report (action_label ++ ": unresolved placeholders in command. Provide required arguments.")
  else
    let cwd_text := substituted_cwd action action_value action_args
    if !cwd_text.isEmpty && hasPlaceholder cwd_text then
      .report (action_label ++ ": unresolved placeholders in cwd. Provide required arguments.")
    else
      .launch cmd (if cwd_text.isEmpty then none else some cwd_text)
        (!pyFalsy (obj_getD action "detached" (.bool false)))

lemma hasPlaceholder_ne_empty {s : String} (h : hasPlaceholder s = true) :
    s.isEmpty = false := by
  cases hs : s.isEmpty
  · rfl
  · exfalso
    have hempty : s = "" := (String.isEmpty_iff s).mp hs
    rw [hempty] at h
    exact absurd h (by decide)

/-- C6: if, after substituting the supplied argument values, the command
parts or the working directory still contain a `\x7bidentifier\x7d`
placeholder, `_run_action` reports an error line and never reaches the
launch branch — no process is started. -/
theorem unresolved_placeholder_blocks_launch :
    ∀ (action : List (String × Json)) (action_value : Option String)
      (action_args : Option (List (String × String))),
      ((substituted_cmd action action_value action_args).any hasPlaceholder = true
        ∨ hasPlaceholder (substituted_cwd action action_value action_args) = true) →
      (_run_action_decision action action_value action_args).isReport = true := by
  intro a v g h
  unfold _run_action_decision
  by_cases h1 : (substituted_cmd a v g).isEmpty
  · simp [h1, ActionDecision.isReport]
  · by_cases h2 : (substituted_cmd a v g).any hasPlaceholder
    · simp [h1, h2, ActionDecision.isReport]
    · have hcwd : hasPlaceholder (substituted_cwd a v g) = true := by
        cases h with
        | inl hl => exact absurd hl h2
        | inr hr => exact hr
      have hne := hasPlaceholder_ne_empty hcwd
      simp [h1, h2, hcwd, hne, ActionDecision.isReport]

/-- Witness for C6: an action whose `cmd` still contains `\x7bfoo\x7d`
after substitution (no arguments supplied) is reported, never launched. -/
theorem unresolved_placeholder_blocks_launch_witness :
    ((substituted_cmd [("name", Json.str "x"),
        ("cmd", Json.arr [Json.str "echo", Json.str "\x7bfoo\x7d"])] none none).any hasPlaceholder
      = true)
    ∧ (_run_action_decision [("name", Json.str "x"),
        ("cmd", Json.arr [Json.str "echo", Json.str "\x7bfoo\x7d"])] none none).isReport = true :=
  ⟨by decide,
   unresolved_placeholder_blocks_launch [("name", Json.str "x"),
     ("cmd", Json.arr [Json.str "echo", Json.str "\x7bfoo\x7d"])] none none (Or.inl (by decide))⟩

/-! ## Action mutex serialization (`monitor.py`, `MonitorApp._run_action`
lines 3698-3705 and 3803-3805)

Two invocations whose actions carry the same non-empty `mutex` name
resolve `self.action_mutexes.setdefault(mutex_name, threading.Lock())` to
the *same* `threading.Lock` object — the registry is keyed by name alone,
so this also holds for actions of different targets.  Each invocation then
performs `lock.acquire()` before its `try` block and `lock.release()` in
the `finally`.  The interleaving of two such invocations is modelled as a
transition system: `acquire` can only fire while the lock is free (that is
exactly the blocking semantics of `threading.Lock.acquire`), and the
`running` phase spans the whole `try` body, i.e. the command execution
window. -/

inductive MutexPhase where
  | idle : MutexPhase
  | running : MutexPhase
  | done : MutexPhase
deriving DecidableEq

/-- Joint state of the shared lock and the two invocations. -/
structure MutexSystemState where
  lock : Bool
  a : MutexPhase
  b : MutexPhase
deriving DecidableEq

def mutexInit : MutexSystemState := ⟨false, .idle, .idle⟩

/-- One interleaving step: either invocation acquires the free lock and
enters its execution window, or releases it on leaving the window. -/
inductive MutexStep : MutexSystemState → MutexSystemState → Prop where
  | acquireA {s : MutexSystemState} : s.a = .idle → s.lock = false →
      MutexStep s ⟨true, .running, s.b⟩
  | releaseA {s : MutexSystemState} : s.a = .running →
      MutexStep s ⟨false, .done, s.b⟩
  | acquireB {s : MutexSystemState} : s.b = .idle → s.lock = false →
      MutexStep s ⟨true, s.a, .running⟩
  | releaseB {s : MutexSystemState} : s.b = .running →
      MutexStep s ⟨false, s.a, .done⟩

inductive MutexReachable : MutexSystemState → Prop where
  | init : MutexReachable mutexInit
  | step {s s' : MutexSystemState} : MutexReachable s → MutexStep s s' → MutexReachable s'

/-- The inductive invariant: an invocation inside its execution window
implies the lock is held, and the two windows never coincide. -/
def MutexInv (s : MutexSystemState) : Prop :=
  ((s.a = .running ∨ s.b = .running) → s.lock = true)
  ∧ ¬(s.a = .running ∧ s.b = .running)

lemma mutexInv_of_reachable {s : MutexSystemState} (h : MutexReachable s) : MutexInv s := by
  induction h with
  | init => exact ⟨by intro h; cases h <;> simp_all [mutexInit], by simp [mutexInit]⟩
  | step _ hstep ih =>
      cases hstep with
      | acquireA hidle hfree =>
          refine ⟨fun _ => rfl, ?_⟩
          intro hc
          have hb := hc.2
          have := ih.1 (Or.inr hb)
          rw [this] at hfree
          exact absurd hfree (by simp)
      | releaseA hrun =>
          refine ⟨?_, ?_⟩
          · intro hc
            cases hc with
            | inl hl => exact absurd hl (by simp)
            | inr hr =>
                exfalso
                exact ih.2 ⟨hrun, hr⟩
          · intro hc
            exact absurd hc.1 (by simp)
      | acquireB hidle hfree =>
          refine ⟨fun _ => rfl, ?_⟩
          intro hc
          have ha := hc.1
          have := ih.1 (Or.inl ha)
          rw [this] at hfree
          exact absurd hfree (by simp)
      | releaseB hrun =>
          refine ⟨?_, ?_⟩
          · intro hc
            cases hc with
            | inl hl =>
                exfalso
                exact ih.2 ⟨hl, hrun⟩
            | inr hr => exact absurd hr (by simp)
          · intro hc
            exact absurd hc.2 (by simp)

/-- C7: in every reachable interleaving of two local action invocations
sharing one mutex name (same `threading.Lock` via the name-keyed,
process-wide registry, including across targets), the two command
execution windows never overlap: no reachable state has both invocations
in `running`.  Which waiter acquires first is unconstrained — the model
promises no ordering or fairness. -/
theorem action_mutex_never_overlaps :
    ∀ (s : MutexSystemState), MutexReachable s →
      ¬(s.a = MutexPhase.running ∧ s.b = MutexPhase.running) :=
  fun _ h => (mutexInv_of_reachable h).2

/-- Witness for C7: the state where invocation A holds the window is
reachable, and the theorem applies to it. -/
theorem action_mutex_never_overlaps_witness :
    ¬((⟨true, MutexPhase.running, MutexPhase.idle⟩ : MutexSystemState).a = MutexPhase.running
      ∧ (⟨true, MutexPhase.running, MutexPhase.idle⟩ : MutexSystemState).b = MutexPhase.running) :=
  action_mutex_never_overlaps ⟨true, .running, .idle⟩
    (MutexReachable.step MutexReachable.init (MutexStep.acquireA rfl rfl))

/-! ## Log Tail Reader line capping (`monitor.py`, `LogTailWorker._append_line`
lines 1254-1259) -/

/-- The longest character prefix whose UTF-8 encoding fits in `budget`
bytes.  This is exactly what `encoded[: budget]` followed by
`.decode("utf-8", errors="ignore")` yields on valid UTF-8: the byte cut
lands at a character boundary or inside one final character, whose partial
bytes the ignore-decode drops. -/
def utf8TakeBytes : Nat → List Char → List Char
  | _, [] => []
  | budget, c :: cs =>
      if c.utf8Size ≤ budget then c :: utf8TakeBytes (budget - c.utf8Size) cs else []

/-- The line-capping step of `_append_line`: a line whose UTF-8 encoding
exceeds `max_line_bytes` is truncated to the byte budget and marked. -/
def logTailStoredLine (max_line_bytes : Nat) (line : String) : String :=
  if utf8Len line > max_line_bytes then
    String.mk (utf8TakeBytes max_line_bytes line.data) ++ "...[truncated]"
  else line

/-- `deque(maxlen=cap)` push: appending to a full deque drops from the
oldest end. -/
def pushBounded (cap : Nat) (buf : List String) (x : String) : List String :=
  let appended := buf ++ [x]
  if appended.length > cap then appended.drop (appended.length - cap) else appended

/-- `LogTailWorker._append_line(line)`: cap the line, then push it into
the bounded buffer. -/
def _append_line (max_line_bytes tail_cap : Nat) (buf : List String) (line : String) :
    List String :=
  pushBounded tail_cap buf (logTailStoredLine max_line_bytes line)

lemma foldl_utf8_acc (l : List Char) :
    ∀ n : Nat, l.foldl (fun n c => n + c.utf8Size) n = n + (l.map Char.utf8Size).sum := by
  induction l with
  | nil => intro n; simp
  | cons c cs ih =>
      intro n
      simp only [List.foldl_cons, List.map_cons, List.sum_cons]
      rw [ih]
      omega

lemma utf8TakeBytes_le (l : List Char) :
    ∀ b : Nat, utf8Len (String.mk (utf8TakeBytes b l)) ≤ b := by
  induction l with
  | nil => intro b; simp [utf8TakeBytes, utf8Len]
  | cons c cs ih =>
      intro b
      simp only [utf8Len, utf8TakeBytes]
      by_cases h : c.utf8Size ≤ b
      · rw [if_pos h]
        simp only [List.foldl_cons]
        rw [foldl_utf8_acc]
        have := ih (b - c.utf8Size)
        simp only [utf8Len] at this
        rw [foldl_utf8_acc] at this
        omega
      · rw [if_neg h]
        simp

/-- C9: a completed line whose UTF-8 encoding exceeds `max_line_bytes` is
stored as a prefix capped at `max_line_bytes` bytes with the
`...[truncated]` marker appended; a line within the budget is stored
verbatim, with no marker. -/
theorem log_tail_line_capped :
    ∀ (max_line_bytes : Nat) (line : String),
      (utf8Len line ≤ max_line_bytes → logTailStoredLine max_line_bytes line = line)
      ∧ (utf8Len line > max_line_bytes →
          logTailStoredLine max_line_bytes line
            = String.mk (utf8TakeBytes max_line_bytes line.data) ++ "...[truncated]"
          ∧ utf8Len (String.mk (utf8TakeBytes max_line_bytes line.data)) ≤ max_line_bytes) := by
  intro mx line
  constructor
  · intro h
    unfold logTailStoredLine
    rw [if_neg (by omega)]
  · intro h
    unfold logTailStoredLine
    rw [if_pos h]
    exact ⟨rfl, utf8TakeBytes_le line.data mx⟩

/-- Witness for C9: with a 4-byte budget, `"abcdefgh"` is stored as
`"abcd...[truncated]"` (content capped at 4 bytes), while `"ab"` is stored
verbatim. -/
theorem log_tail_line_capped_witness :
    logTailStoredLine 4 "abcdefgh" = "abcd...[truncated]"
    ∧ utf8Len "abcd" ≤ 4
    ∧ logTailStoredLine 4 "ab" = "ab" :=
  ⟨((log_tail_line_capped 4 "abcdefgh").2 (by decide)).1.trans (by decide),
   by decide,
   (log_tail_line_capped 4 "ab").1 (by decide)⟩

/-! ## Config Normalizer, v2 validation (`monitor.py`, `_assert_allowed_keys`
lines 51-69, `_validate_v2_control_payload` lines 382-402,
`_validate_v2_bootstrap_payload` lines 405-414, `_validate_v2_target_payload`
lines 417-570, `as_target_list` lines 604-614, `_normalize_v1_include` lines
772-783, `_normalize_v2_include` lines 1036-1072)

`ValueError` raising is embedded as `Except String`; the `source_path`
that the source interpolates into messages is folded into the `context`
string.  Success payloads that no claim inspects are elided to `Unit`
(noted per definition). -/

def exceptIsOk {ε α : Type} : Except ε α → Bool
  | .ok _ => true
  | .error _ => false

/-- Lexicographic code-point comparison of character lists — the string
order used by Python `sorted`. -/
def strLtChars : List Char → List Char → Bool
  | [], [] => false
  | [], _ :: _ => true
  | _ :: _, [] => false
  | a :: as, b :: bs =>
      if a.toNat < b.toNat then true
      else if b.toNat < a.toNat then false
      else strLtChars as bs

def strLe (a b : String) : Bool := !(strLtChars b.data a.data)

/-- Stable insertion of a string into a sorted list. -/
def insertSorted (x : String) : List String → List String
  | [] => [x]
  | y :: ys => if strLe x y then x :: y :: ys else y :: insertSorted x ys

/-- Insertion sort over strings — the comparison order of Python
`sorted`. -/
def sortStrings : List String → List String
  | [] => []
  | x :: xs => insertSorted x (sortStrings xs)

/-- First-occurrence deduplication with an accumulator of seen keys. -/
def dedupAux : List String → List String → List String
  | [], _ => []
  | x :: xs, seen =>
      if seen.contains x then dedupAux xs seen else x :: dedupAux xs (x :: seen)

/-- Python `sorted(set(l))` for strings. -/
def pySortedSet (l : List String) : List String :=
  sortStrings (dedupAux l [])

/-- The allow-list filter of `_assert_allowed_keys`: a key is an extra if
it is not allowed, is not `$schema`, and does not carry the tolerated
`x-` prefix. -/
def isExtraKey (allowed : List String) (k : String) : Bool :=
  !(allowed.contains k) && !(k == "$schema") && !("x-".data.isPrefixOf k.data)

/-- `_assert_allowed_keys(obj, allowed, context)`: collect the extra keys,
sort the deduplicated set, and reject when any remain. -/
def _assert_allowed_keys (kvs : List (String × Json)) (allowed : List String)
    (context : String) : Except String Unit :=
  let extras := pySortedSet ((kvs.map (fun kv => kv.1)).filter (isExtraKey allowed))
  if extras.isEmpty then .ok ()
  else .error (context ++ " has unsupported keys: " ++ String.intercalate ", " extras)

/-- The computed `mode` of a control object:
`str(value.get("mode") or "").strip().lower()`. -/
def controlModeOf (kvs : List (String × Json)) : String :=
  pyLower (pyStrip (pyStrOrEmpty (obj_get kvs "mode")))

/-- The computed `endpoint`: `str(value.get("endpoint") or "").strip()`. -/
def controlEndpointOf (kvs : List (String × Json)) : String :=
  pyStrip (pyStrOrEmpty (obj_get kvs "endpoint"))

/-- The computed `appId`: `str(value.get("appId") or "").strip()`. -/
def controlAppIdOf (kvs : List (String × Json)) : String :=
  pyStrip (pyStrOrEmpty (obj_get kvs "appId"))

def controlAllowedKeys : List String :=
  ["mode", "endpoint", "appId", "timeoutSeconds", "jobPollMs", "jobTimeoutSeconds"]

/-- `_validate_v2_control_payload(value, ..., context)`.  On success the
source returns `_normalize_control_payload(value)`, a dict of the
normalized mode/endpoint/appId plus clamped numeric timeouts that no
claim in scope inspects; it is elided to `Unit` here. -/
def _validate_v2_control_payload (value : Json) (context : String) : Except String Unit :=
  match value with
  | .null => .error (context ++ " is missing required control object.")
  | .obj kvs =>
      match _assert_allowed_keys kvs controlAllowedKeys context with
      | .error e => .error e
      | .ok _ =>
          if controlModeOf kvs ≠ "ipc" then
            .error (context ++ ".mode must be " ++ pyQuote ++ "ipc" ++ pyQuote ++ ".")
          else if (controlEndpointOf kvs).isEmpty then
            .error (context ++ ".endpoint must be a non-empty string when mode=ipc.")
          else if (controlAppIdOf kvs).isEmpty then
            .error (context ++ ".appId must be a non-empty string when mode=ipc.")
          else .ok ()
  | _ => .error (context ++ " must be an object.")

/-- `_validate_v2_bootstrap_payload(value, ..., context)`; the
`\x7b"configPath": ...\x7d` success payload is elided to `Unit`. -/
def _validate_v2_bootstrap_payload (value : Json) (context : String) : Except String Unit :=
  match value with
  | .null => .ok ()
  | .obj kvs =>
      match _assert_allowed_keys kvs ["configPath"] context with
      | .error e => .error e
      | .ok _ =>
          if (pyStrip (pyStrOrEmpty (obj_get kvs "configPath"))).isEmpty then
            .error (context ++ ".configPath must be a non-empty string when provided.")
          else .ok ()
  | _ => .error (context ++ " must be an object when provided.")

def v2TargetAllowedKeys : List String :=
  ["configVersion", "id", "title", "refreshSeconds", "status", "logs", "actions", "ui",
   "actionOutput", "control", "bootstrap"]

/-- `_validate_v2_target_payload(target, ..., context)`: the allow-list
check, then the required control object, then the optional bootstrap
object.  `validateBody` stands for the remainder of the source function
(lines 437-570: status, logs, actions, ui tabs/widgets with
cross-reference checks, actionOutput) which no claim in scope exercises;
the theorems below hold for every instantiation. -/
def _validate_v2_target_payload (validateBody : List (String × Json) → Except String Unit)
    (target : List (String × Json)) (context : String) : Except String Unit :=
  match _assert_allowed_keys target v2TargetAllowedKeys context with
  | .error e => .error e
  | .ok _ =>
      match _validate_v2_control_payload (obj_get target "control") (context ++ ".control") with
      | .error e => .error e
      | .ok _ =>
          match _validate_v2_bootstrap_payload (obj_get target "bootstrap")
              (context ++ ".bootstrap") with
          | .error e => .error e
          | .ok _ => validateBody target

/-- `as_target_list(payload)`: the `target` entry when it is an object,
then every object entry of the `targets` list. -/
def as_target_list (payload : List (String × Json)) : List (List (String × Json)) :=
  (match obj_get payload "target" with
   | .obj kvs => [kvs]
   | _ => []) ++
  (match obj_get payload "targets" with
   | .arr entries => entries.filterMap (fun e =>
        match e with
        | .obj kvs => some kvs
        | _ => none)
   | _ => [])

/-- The candidate list normalized by a v2 include: the listed targets, or
the payload itself as a single target when none are listed (source lines
1046, 1056-1058). -/
def v2IncludeCandidates (payload : List (String × Json)) : List (List (String × Json)) :=
  if (as_target_list payload).isEmpty then [payload] else as_target_list payload

/-- The validation loop over listed candidates (source lines 1053-1054),
with 1-based contexts `target[i]`. -/
def validateV2Targets (validateBody : List (String × Json) → Except String Unit) :
    List (List (String × Json)) → Nat → Except String Unit
  | [], _ => .ok ()
  | t :: rest, i =>
      match _validate_v2_target_payload validateBody t ("target[" ++ toString i ++ "]") with
      | .error e => .error e
      | .ok _ => validateV2Targets validateBody rest (i + 1)

/-- The normalization loop (source lines 1060-1071); `normTarget` stands
for `_normalize_v2_target`, whose output dict no claim in scope inspects. -/
def normalizeV2Targets (normTarget : List (String × Json) → Except String (List (String × Json))) :
    List (List (String × Json)) → Except String (List (List (String × Json)))
  | [] => .ok []
  | t :: rest =>
      match normTarget t with
      | .error e => .error e
      | .ok nt =>
          match normalizeV2Targets normTarget rest with
          | .error e => .error e
          | .ok nts => .ok (nt :: nts)

/-- `_normalize_v2_include(payload, ...)`: when targets are listed, check
the container allow-list and validate each; otherwise validate the
payload itself as a single target; then normalize every candidate. -/
def _normalize_v2_include (validateBody : List (String × Json) → Except String Unit)
    (normTarget : List (String × Json) → Except String (List (String × Json)))
    (payload : List (String × Json)) : Except String (List (List (String × Json))) :=
  let validated : Except String Unit :=
    if (as_target_list payload).isEmpty then
      _validate_v2_target_payload validateBody payload "target"
    else
      match _assert_allowed_keys payload ["configVersion", "target", "targets"]
          "v2 include container" with
      | .error e => .error e
      | .ok _ => validateV2Targets validateBody (as_target_list payload) 1
  match validated with
  | .error e => .error e
  | .ok _ => normalizeV2Targets normTarget (v2IncludeCandidates payload)

/-- `_normalize_v1_include(payload, ...)` (lines 772-783): an include with
no targets contributes the empty list; `normRest` stands for the
per-target normalization loop of the source (lines 785 onward), which can
itself raise (for instance on a missing `statusCommand`). -/
def _normalize_v1_include
    (normRest : List (String × Json) → List (List (String × Json)) →
      Except String (List (List (String × Json))))
    (payload : List (String × Json)) : Except String (List (List (String × Json))) :=
  if (as_target_list payload).isEmpty then .ok []
  else normRest payload (as_target_list payload)

/-- The five rejection conditions of C3 on a target's `control` value, in
terms of the values the validator computes: missing (Python `None`), not
an object, mode other than `ipc`, empty endpoint, empty appId. -/
def BadControl (c : Json) : Prop :=
  c = Json.null
  ∨ (∀ kvs, c ≠ Json.obj kvs)
  ∨ (∃ kvs, c = Json.obj kvs ∧
      (controlModeOf kvs ≠ "ipc" ∨ controlEndpointOf kvs = "" ∨ controlAppIdOf kvs = ""))

lemma bad_control_errors (c : Json) (ctx : String) (h : BadControl c) :
    exceptIsOk (_validate_v2_control_payload c ctx) = false := by
  cases c with
  | null => rfl
  | bool b => rfl
  | num n => rfl
  | str s => rfl
  | arr xs => rfl
  | obj kvs =>
      have hcond : controlModeOf kvs ≠ "ipc"
          ∨ controlEndpointOf kvs = "" ∨ controlAppIdOf kvs = "" := by
        rcases h with h0 | h1 | h2
        · exact absurd h0 (by simp)
        · exact absurd rfl (h1 kvs)
        · obtain ⟨kvs2, heq, hc⟩ := h2
          injection heq with he
          exact he ▸ hc
      cases hassert : _assert_allowed_keys kvs controlAllowedKeys ctx with
      | error e =>
          simp only [_validate_v2_control_payload, hassert]
          rfl
      | ok u =>
          simp only [_validate_v2_control_payload, hassert]
          by_cases hm : controlModeOf kvs = "ipc"
          · rw [if_neg (by simp [hm])]
            have hea : controlEndpointOf kvs = "" ∨ controlAppIdOf kvs = "" := by
              rcases hcond with hx | hx | hx
              exacts [absurd hm hx, Or.inl hx, Or.inr hx]
            by_cases he : (controlEndpointOf kvs).isEmpty
            · rw [if_pos he]
              rfl
            · rw [if_neg he]
              have happ : controlAppIdOf kvs = "" := by
                rcases hea with hx | hx
                · exact absurd (by rw [hx]; rfl) he
                · exact hx
              rw [if_pos (show (controlAppIdOf kvs).isEmpty by rw [happ]; rfl)]
              rfl
          · rw [if_pos hm]
            rfl

lemma target_error_of_control (vb : List (String × Json) → Except String Unit)
    (t : List (String × Json)) (ctx : String)
    (h : exceptIsOk (_validate_v2_control_payload (obj_get t "control") (ctx ++ ".control"))
      = false) :
    exceptIsOk (_validate_v2_target_payload vb t ctx) = false := by
  unfold _validate_v2_target_payload
  cases ha : _assert_allowed_keys t v2TargetAllowedKeys ctx with
  | error e => rfl
  | ok u =>
      cases hc : _validate_v2_control_payload (obj_get t "control") (ctx ++ ".control") with
      | error e => rfl
      | ok _ =>
          rw [hc] at h
          exact absurd h (by simp [exceptIsOk])

lemma validateV2Targets_error (vb : List (String × Json) → Except String Unit)
    (t : List (String × Json))
    (htgt : ∀ ctx, exceptIsOk (_validate_v2_target_payload vb t ctx) = false) :
    ∀ (l : List (List (String × Json))) (i : Nat), t ∈ l →
      exceptIsOk (validateV2Targets vb l i) = false := by
  intro l
  induction l with
  | nil => intro i hmem; exact absurd hmem (List.not_mem_nil t)
  | cons hd rest ih =>
      intro i hmem
      unfold validateV2Targets
      cases hv : _validate_v2_target_payload vb hd ("target[" ++ toString i ++ "]") with
      | error e => rfl
      | ok _ =>
          rcases List.mem_cons.mp hmem with heq | htail
          · subst heq
            have := htgt ("target[" ++ toString i ++ "]")
            rw [hv] at this
            exact absurd this (by simp [exceptIsOk])
          · exact ih (i + 1) htail

/-- C3: a v2 include containing (or consisting of) a target whose
`control` is missing, not an object, has a mode other than `"ipc"`, or
has an empty endpoint or appId, is rejected by `_normalize_v2_include`
with a `ConfigError` — no target list is produced — regardless of how the
unexercised remainder of target validation and normalization behave. -/
theorem v2_bad_control_rejects_include :
    ∀ (validateBody : List (String × Json) → Except String Unit)
      (normTarget : List (String × Json) → Except String (List (String × Json)))
      (payload t : List (String × Json)),
      t ∈ v2IncludeCandidates payload →
      BadControl (obj_get t "control") →
      exceptIsOk (_normalize_v2_include validateBody normTarget payload) = false := by
  intro vb nt payload t hmem hbad
  have htgt : ∀ ctx, exceptIsOk (_validate_v2_target_payload vb t ctx) = false :=
    fun ctx => target_error_of_control vb t ctx (bad_control_errors _ _ hbad)
  unfold _normalize_v2_include
  by_cases hc : (as_target_list payload).isEmpty
  · have hml : t = payload := by
      unfold v2IncludeCandidates at hmem
      rw [if_pos hc] at hmem
      simpa using hmem
    simp only [if_pos hc]
    cases hv : _validate_v2_target_payload vb payload "target" with
    | error e => rfl
    | ok _ =>
        have := htgt "target"
        rw [hml, hv] at this
        exact absurd this (by simp [exceptIsOk])
  · have hmem2 : t ∈ as_target_list payload := by
      unfold v2IncludeCandidates at hmem
      rw [if_neg hc] at hmem
      exact hmem
    simp only [if_neg hc]
    cases ha : _assert_allowed_keys payload ["configVersion", "target", "targets"]
        "v2 include container" with
    | error e => rfl
    | ok _ =>
        cases hv : validateV2Targets vb (as_target_list payload) 1 with
        | error e => rfl
        | ok _ =>
            have := validateV2Targets_error vb t htgt (as_target_list payload) 1 hmem2
            rw [hv] at this
            exact absurd this (by simp [exceptIsOk])

/-- Witness for C3: the empty dict as a single-target v2 include has a
missing `control` and is rejected. -/
theorem v2_bad_control_rejects_include_witness :
    (([] : List (String × Json)) ∈ v2IncludeCandidates []
      ∧ BadControl (obj_get [] "control"))
    ∧ exceptIsOk (_normalize_v2_include (fun _ => Except.ok ())
        (fun t => Except.ok t) []) = false :=
  ⟨⟨by rw [show v2IncludeCandidates [] = [[]] from rfl]; exact List.mem_singleton.mpr rfl,
    Or.inl rfl⟩,
   v2_bad_control_rejects_include (fun _ => Except.ok ()) (fun t => Except.ok t) [] []
     (by rw [show v2IncludeCandidates [] = [[]] from rfl]; exact List.mem_singleton.mpr rfl)
     (Or.inl rfl)⟩

lemma insertSorted_ne_nil (x : String) (l : List String) : insertSorted x l ≠ [] := by
  cases l with
  | nil => simp [insertSorted]
  | cons y ys =>
      simp only [insertSorted]
      by_cases h : strLe x y
      · rw [if_pos h]
        simp
      · rw [if_neg h]
        simp

lemma pySortedSet_ne_nil (l : List String) (h : l ≠ []) : pySortedSet l ≠ [] := by
  cases l with
  | nil => exact absurd rfl h
  | cons x xs =>
      unfold pySortedSet
      have hd : dedupAux (x :: xs) [] = x :: dedupAux xs [x] := by
        simp [dedupAux]
      rw [hd]
      unfold sortStrings
      exact insertSorted_ne_nil x _

/-- C8 counterexample: the claim asserts that a v2 include whose `targets`
list is empty loads successfully with an empty contribution.  In fact
`as_target_list` returns no candidates for it, so `_normalize_v2_include`
validates the include payload itself as a single target, where the
`targets` key fails the allow-list check — the load is rejected even with
remainder validators that always succeed. -/
theorem empty_v2_include_rejected_counterexample :
    as_target_list [("configVersion", Json.num 2), ("targets", Json.arr [])] = []
    ∧ _normalize_v2_include (fun _ => Except.ok ()) (fun t => Except.ok t)
        [("configVersion", Json.num 2), ("targets", Json.arr [])]
      = Except.error "target has unsupported keys: targets" :=
  ⟨rfl, rfl⟩

/-- C8 amended: a **v1** include with no targets contributes the empty
list and is not an error; a **v2** include with no listed targets is
instead validated as a single-target payload, so a v2 include that has a
`targets` key yet lists no targets is rejected with a `ConfigError`. -/
theorem empty_include_contribution_amended :
    (∀ (normRest : List (String × Json) → List (List (String × Json)) →
        Except String (List (List (String × Json))))
      (payload : List (String × Json)),
      as_target_list payload = [] →
      _normalize_v1_include normRest payload = Except.ok [])
    ∧ (∀ (validateBody : List (String × Json) → Except String Unit)
        (normTarget : List (String × Json) → Except String (List (String × Json)))
        (payload : List (String × Json)),
        as_target_list payload = [] → obj_member payload "targets" = true →
        exceptIsOk (_normalize_v2_include validateBody normTarget payload) = false) := by
  constructor
  · intro normRest payload h
    unfold _normalize_v1_include
    rw [h]
    rfl
  · intro vb nt payload hempty hmember
    have hkey : "targets" ∈ (payload.map (fun kv => kv.1)).filter
        (isExtraKey v2TargetAllowedKeys) := by
      have h1 : (payload.find? (fun kv => kv.1 == "targets")).isSome := by
        simpa [obj_member] using hmember
      rw [List.find?_isSome] at h1
      obtain ⟨kv, hkv, hp⟩ := h1
      have hfst : kv.1 = "targets" := by simpa using hp
      exact List.mem_filter.mpr ⟨List.mem_map.mpr ⟨kv, hkv, hfst⟩, by decide⟩
    have hne : pySortedSet ((payload.map (fun kv => kv.1)).filter
        (isExtraKey v2TargetAllowedKeys)) ≠ [] :=
      pySortedSet_ne_nil _ (List.ne_nil_of_mem hkey)
    have hfalse : (pySortedSet ((payload.map (fun kv => kv.1)).filter
        (isExtraKey v2TargetAllowedKeys))).isEmpty = false := by
      cases hl : pySortedSet ((payload.map (fun kv => kv.1)).filter
          (isExtraKey v2TargetAllowedKeys)) with
      | nil => exact absurd hl hne
      | cons a as => rfl
    have hassert : exceptIsOk (_assert_allowed_keys payload v2TargetAllowedKeys "target")
        = false := by
      unfold _assert_allowed_keys
      rw [if_neg (by simp [hfalse])]
      rfl
    have hcands : (as_target_list payload).isEmpty = true := by
      rw [hempty]
      rfl
    unfold _normalize_v2_include
    simp only [if_pos hcands]
    cases hv : _validate_v2_target_payload vb payload "target" with
    | error e => rfl
    | ok _ =>
        exfalso
        unfold _validate_v2_target_payload at hv
        cases ha : _assert_allowed_keys payload v2TargetAllowedKeys "target" with
        | error e =>
            rw [ha] at hv
            exact absurd hv (by simp)
        | ok _ =>
            rw [ha] at hassert
            exact absurd hassert (by simp [exceptIsOk])

/-- Witness for the amended C8: a v1 include holding only `logPanels`
contributes no targets and loads; a v2 include whose `targets` list holds
no objects is rejected. -/
theorem empty_include_contribution_amended_witness :
    _normalize_v1_include (fun _ _ => Except.ok []) [("logPanels", Json.arr [])] = Except.ok []
    ∧ exceptIsOk (_normalize_v2_include (fun _ => Except.ok ()) (fun t => Except.ok t)
        [("targets", Json.arr [Json.num 3])]) = false :=
  ⟨empty_include_contribution_amended.1 (fun _ _ => Except.ok []) [("logPanels", Json.arr [])] rfl,
   empty_include_contribution_amended.2 (fun _ => Except.ok ()) (fun t => Except.ok t)
     [("targets", Json.arr [Json.num 3])] rfl rfl⟩
